import Mathlib

/-
Verification development for the RAG testing framework
(Syed-Ayan-Ali/rag-testing-framework).

Shallow embedding of the core evaluation engine:
  * the shared set-similarity primitive `calculateArraySimilarity`
    (src/lib/metrics/brdr-metric.ts and the SQL metric module),
  * the SQL scoring engine (`SQLMetricCalculator`),
  * the BRDR domain-document scoring engine (`BRDRMetricCalculator`),
  * configuration validation and the experiment orchestrator
    (src/lib/core/testing-framework.ts),
  * the JSON export/import pair (`exportResults` / `importResults`).

Modelling conventions:
  * JavaScript numbers are modelled as exact rationals (ℚ); all the
    scores involved are produced by small exact arithmetic.
  * JavaScript `Set` iteration order (insertion order, first occurrence
    kept) is modelled by `List.eraseDups`-style first-occurrence
    de-duplication on lists.
  * Word-boundary regular-expression tests (`\b term \b`) are modelled
    at word granularity: a text is tokenised into its maximal runs of
    word characters (`[A-Za-z0-9_]`), and a term/phrase occurs iff its
    own word tokens form a contiguous run of the text's tokens.
  * Environment-supplied effects (Math.random shuffles, Date.now, uuid,
    the database adapter, the embedding provider and the strict SQL
    parser from the external sql-parser-cst package) are passed in as
    explicit parameters.
-/

namespace RagTesting

/-- JS `item.toLowerCase()` on a string (character-wise, via the underlying
character list so that it evaluates by kernel reduction). -/
def jsToLower (s : String) : String := ⟨s.data.map Char.toLower⟩

/-- Insertion loop of a JS `Set`: an element is appended unless it was
seen already. -/
def jsSetAux (seen : List String) : List String → List String
  | [] => []
  | x :: xs =>
      if x ∈ seen then jsSetAux seen xs
      else x :: jsSetAux (x :: seen) xs

/-- First-occurrence de-duplication, the iteration order of a JS `Set`
built by inserting the list's elements left to right. -/
def jsSet (l : List String) : List String := jsSetAux [] l

/-- Result record of `calculateArraySimilarity` ({score, missing, extra}). -/
structure SimilarityResult where
  score : ℚ
  missing : List String
  extra : List String
  deriving DecidableEq, Repr

/-- Embedding of `calculateArraySimilarity` (src/lib/metrics/brdr-metric.ts,
lines 290-306): lower-case both lists, de-duplicate as JS Sets, and compare.
`score` is |intersection| / |union|, taken to be 1 when the union is empty. -/
def calculateArraySimilarity (expected actual : List String) : SimilarityResult :=
  let expectedSet := jsSet (expected.map jsToLower)
  let actualSet := jsSet (actual.map jsToLower)
  let intersection := expectedSet.filter (fun x => x ∈ actualSet)
  let missing := expectedSet.filter (fun x => x ∉ actualSet)
  let extra := actualSet.filter (fun x => x ∉ expectedSet)
  let unionSet := jsSet (expectedSet ++ actualSet)
  let score : ℚ := if unionSet.length = 0 then 1 else
    (intersection.length : ℚ) / (unionSet.length : ℚ)
  ⟨score, missing, extra⟩

/-- Embedding of the character-for-character identical copy of
`calculateArraySimilarity` in the SQL metric module. -/
def sqlCalculateArraySimilarity (expected actual : List String) : SimilarityResult :=
  calculateArraySimilarity expected actual

/-- The lower-cased de-duplicated expected set used inside
`calculateArraySimilarity`. -/
def lowerSet (l : List String) : List String := jsSet (l.map jsToLower)

/-- The intersection computed inside `calculateArraySimilarity`. -/
def simIntersection (expected actual : List String) : List String :=
  (lowerSet expected).filter (fun x => x ∈ lowerSet actual)

/-- The union computed inside `calculateArraySimilarity`. -/
def simUnion (expected actual : List String) : List String :=
  jsSet (lowerSet expected ++ lowerSet actual)

/-- Metric selector of a test configuration ('sql' | 'brdr'). -/
inductive MetricType where
  | sql
  | brdr
  deriving DecidableEq, Repr

/-- One column of a table schema (src/lib/database/connection.ts shape used
by validateConfiguration). -/
structure ColumnInfo where
  column_name : String
  data_type : String
  deriving DecidableEq, Repr

/-- Table schema information returned by the database adapter. -/
structure TableInfo where
  name : String
  columns : List ColumnInfo
  rowCount : Nat
  deriving DecidableEq, Repr

/-- Embedding of the TestConfiguration interface
(src/lib/core/testing-framework.ts, lines 7-18). The opaque
embeddingConfig handle is environment data and is not part of any
validated field, so it is omitted. -/
structure TestConfiguration where
  tableId : String
  tableName : String
  selectedColumns : List String
  yColumn : String
  queryColumn : String
  answerColumn : String
  metricType : MetricType
  trainingRatio : ℚ
  testName : String
  deriving DecidableEq, Repr

/-- Result record of validateConfiguration. -/
structure ValidationResult where
  isValid : Bool
  errors : List String
  warnings : List String
  deriving DecidableEq, Repr

/-- The column names of a table schema (`tableInfo.columns.map(col =>
col.column_name)`). -/
def columnNamesOf (ti : TableInfo) : List String :=
  ti.columns.map (fun c => c.column_name)

/-- Embedding of `validateConfiguration`
(src/lib/core/testing-framework.ts, lines 275-342). The database adapter's
`getTableInfo` is passed in as a function. Errors and warnings are
accumulated in source push order; `isValid` is `errors.length === 0`. -/
def validateConfiguration (getTableInfo : String → Option TableInfo)
    (config : TestConfiguration) : ValidationResult :=
  match getTableInfo config.tableName with
  | none =>
      { isValid := false,
        errors := ["Table \"" ++ config.tableName ++ "\" not found"],
        warnings := [] }
  | some tableInfo =>
      let columnNames := columnNamesOf tableInfo
      let errors :=
        ((config.selectedColumns.filter (fun c => c ∉ columnNames)).map
          (fun c => "Column \"" ++ c ++ "\" not found in table \"" ++
            config.tableName ++ "\""))
        ++ (if config.yColumn ∈ columnNames then [] else
            ["Y column \"" ++ config.yColumn ++ "\" not found in table \"" ++
              config.tableName ++ "\""])
        ++ (if config.queryColumn ∈ columnNames then [] else
            ["Query column \"" ++ config.queryColumn ++
              "\" not found in table \"" ++ config.tableName ++ "\""])
        ++ (if config.answerColumn ∈ columnNames then [] else
            ["Answer column \"" ++ config.answerColumn ++
              "\" not found in table \"" ++ config.tableName ++ "\""])
        ++ (if config.selectedColumns.length = 0 then
            ["At least one column must be selected for embeddings"] else [])
        ++ (if config.trainingRatio ≤ 0 ∨ 1 ≤ config.trainingRatio then
            ["Training ratio must be between 0 and 1"] else [])
      let warnings :=
        (if 5 < config.selectedColumns.length then
          ["More than 5 columns selected - this may result in many combinations and slow processing"]
          else [])
        ++ (if tableInfo.rowCount < 10 then
            ["Table has very few rows - results may not be reliable"] else [])
        ++ (if ⌈(tableInfo.rowCount : ℚ) * (1 - config.trainingRatio)⌉ < 5 then
            ["Test set will be very small - consider adjusting training ratio"]
            else [])
      { isValid := errors.length == 0, errors := errors, warnings := warnings }

/-- A concrete table schema: six candidate columns plus target, query and
answer columns, 100 rows. -/
def demoTableInfo : TableInfo :=
  { name := "docs",
    columns := [⟨"c1", "text"⟩, ⟨"c2", "text"⟩, ⟨"c3", "text"⟩,
      ⟨"c4", "text"⟩, ⟨"c5", "text"⟩, ⟨"c6", "text"⟩,
      ⟨"y", "text"⟩, ⟨"q", "text"⟩, ⟨"a", "text"⟩],
    rowCount := 100 }

/-- A database adapter exposing exactly the table `docs`. -/
def demoGetTableInfo : String → Option TableInfo :=
  fun n => if n = "docs" then some demoTableInfo else none

/-- A configuration selecting six candidate columns (more than the spec's
claimed cap of five). -/
def sixColumnConfig : TestConfiguration :=
  { tableId := "t1", tableName := "docs",
    selectedColumns := ["c1", "c2", "c3", "c4", "c5", "c6"],
    yColumn := "y", queryColumn := "q", answerColumn := "a",
    metricType := .sql, trainingRatio := 1/2, testName := "six columns" }

/-- A configuration whose target column `y` also appears in the candidate
column set. -/
def duplicateTargetConfig : TestConfiguration :=
  { tableId := "t1", tableName := "docs",
    selectedColumns := ["y", "c1"],
    yColumn := "y", queryColumn := "q", answerColumn := "a",
    metricType := .sql, trainingRatio := 1/2, testName := "dup target" }

/-- A row of the dataset: a mapping from field name to (text) value,
modelled as an association list. -/
abbrev Row := List (String × String)

/-- One column combination (ColumnCombination from the embedding-generator
module): the member columns and a display name. -/
structure ColumnCombination where
  columns : List String
  name : String
  deriving DecidableEq, Repr

/-- Modelled from the spec: `generateColumnCombinations` lives in
lib/embeddings/embedding-generator.ts, which is not included under src/.
Per spec §4.1 it enumerates all 2^n − 1 non-empty subsets of the selected
columns, each wrapped with a deterministic name joining the member field
names (selection order preserved). -/
def generateColumnCombinations (columns : List String) : List ColumnCombination :=
  (columns.sublists.filter (fun s => s ≠ [])).map
    (fun cols => { columns := cols, name := String.intercalate "_" cols })

/-- The split cut point of `runSingleTest`:
`Math.floor(shuffled.length * config.trainingRatio)`
(src/lib/core/testing-framework.ts, line 173). -/
def splitIndexOf (len : Nat) (ratio : ℚ) : Nat :=
  (⌊(len : ℚ) * ratio⌋).toNat

/-- The training/testing split of `runSingleTest` (lines 172-175): the
shuffled rows are cut at the split index; the first segment is training
data, the remainder testing data. The shuffled order produced by the
unseeded `Math.random` sort comparator is supplied by the caller. -/
def splitData (ratio : ℚ) (shuffled : List Row) : List Row × List Row :=
  (shuffled.take (splitIndexOf shuffled.length ratio),
   shuffled.drop (splitIndexOf shuffled.length ratio))

/-- The training segment a single-test call works with. -/
def trainingSlice (ratio : ℚ) (shuffled : List Row) : List Row :=
  (splitData ratio shuffled).1

/-- Aggregate outcome of the embedding/retrieval/scoring stage of one
combination (training-embedding generation plus the per-query loop of
runSingleTest, lines 179-251; the embedding-generator module backing it is
environment code). -/
structure EvalOutcome where
  averageScore : ℚ
  totalTests : Nat
  trainingEmbeddings : Nat
  averageSimilarity : ℚ
  deriving DecidableEq, Repr

/-- The embedding/retrieval/scoring stage as a function of the combination
and the training/testing partition; an `error` models the embedding
provider throwing while that combination's index is built. -/
abbrev EvalPhase :=
  ColumnCombination → List Row → List Row → Except String EvalOutcome

/-- Embedding of the TestResult record (trimmed to the deterministic
fields; uuid and wall-clock fields are environment-supplied). -/
structure TestResult where
  testName : String
  combination : ColumnCombination
  averageScore : ℚ
  totalTests : Nat
  trainingEmbeddings : Nat
  averageSimilarity : ℚ
  deriving DecidableEq, Repr

/-- Embedding of `runSingleTest` (src/lib/core/testing-framework.ts,
lines 160-273): fail when the table is empty, split the shuffled rows at
`floor(N × trainingRatio)`, then run the embedding/retrieval/scoring stage
on the two segments. An exception from that stage propagates. -/
def runSingleTest (evalPhase : EvalPhase) (config : TestConfiguration)
    (combination : ColumnCombination) (data shuffled : List Row) :
    Except String TestResult :=
  if data.length = 0 then
    .error ("No data found in table " ++ config.tableName)
  else
    match evalPhase combination (splitData config.trainingRatio shuffled).1
        (splitData config.trainingRatio shuffled).2 with
    | .error e => .error e
    | .ok out =>
        .ok { testName := config.testName, combination := combination,
              averageScore := out.averageScore, totalTests := out.totalTests,
              trainingEmbeddings := out.trainingEmbeddings,
              averageSimilarity := out.averageSimilarity }

/-- Embedding of the per-combination loop of `runFullExperiment`
(lines 112-127): combination number `i` is evaluated by `runSingleTest`
with the `i`-th shuffle outcome; on an exception the loop logs and
`continue`s, pushing nothing. -/
def collectResults (evalPhase : EvalPhase) (config : TestConfiguration)
    (data : List Row) (shuffles : Nat → List Row) :
    Nat → List ColumnCombination → List TestResult
  | _, [] => []
  | i, c :: rest =>
      match runSingleTest evalPhase config c data (shuffles i) with
      | .ok r => r :: collectResults evalPhase config data shuffles (i + 1) rest
      | .error _ => collectResults evalPhase config data shuffles (i + 1) rest

/-- Embedding of `allResults.reduce((best, current) =>
current.averageScore > best.averageScore ? current : best)` (lines 131-133),
folded with the first element as the accumulator. -/
def reduceBest : TestResult → List TestResult → TestResult
  | best, [] => best
  | best, current :: rest =>
      reduceBest (if current.averageScore > best.averageScore then current else best)
        rest

/-- Embedding of `allResults.reduce((worst, current) =>
current.averageScore < worst.averageScore ? current : worst)`
(lines 134-136). -/
def reduceWorst : TestResult → List TestResult → TestResult
  | worst, [] => worst
  | worst, current :: rest =>
      reduceWorst (if current.averageScore < worst.averageScore then current else worst)
        rest

/-- Summary block of ExperimentResults (lines 55-62). -/
structure ExperimentSummary where
  bestCombination : ColumnCombination
  bestScore : ℚ
  worstCombination : ColumnCombination
  worstScore : ℚ
  averageScore : ℚ
  totalCombinations : Nat
  deriving DecidableEq, Repr

/-- Embedding of the ExperimentResults record (lines 49-64); `timestamp`
is the `new Date()` value in epoch milliseconds and `processingTime` the
measured elapsed time, both environment-supplied. -/
structure ExperimentResults where
  experimentId : String
  testName : String
  timestamp : Int
  configuration : TestConfiguration
  allResults : List TestResult
  summary : ExperimentSummary
  processingTime : Int
  deriving DecidableEq, Repr

/-- Embedding of `runFullExperiment` (src/lib/core/testing-framework.ts,
lines 100-158): enumerate the column combinations, evaluate each one with
its own freshly shuffled split (failures skipped), then aggregate. On an
empty results list the `reduce` calls throw
("Reduce of empty array with no initial value"). The uuid, `Date.now`
start/stop times and the per-call shuffle outcomes are environment inputs
passed as parameters. -/
def runFullExperiment (evalPhase : EvalPhase) (experimentId : String)
    (now elapsedMs : Int) (shuffles : Nat → List Row)
    (config : TestConfiguration) (data : List Row) :
    Except String ExperimentResults :=
  let combinations := generateColumnCombinations config.selectedColumns
  match collectResults evalPhase config data shuffles 0 combinations with
  | [] => .error "Reduce of empty array with no initial value"
  | r0 :: rest =>
      let bestResult := reduceBest r0 rest
      let worstResult := reduceWorst r0 rest
      let scores := (r0 :: rest).map (fun r => r.averageScore)
      .ok { experimentId := experimentId, testName := config.testName,
            timestamp := now, configuration := config,
            allResults := r0 :: rest,
            summary := { bestCombination := bestResult.combination,
                         bestScore := bestResult.averageScore,
                         worstCombination := worstResult.combination,
                         worstScore := worstResult.averageScore,
                         averageScore := scores.sum / (scores.length : ℚ),
                         totalCombinations := (r0 :: rest).length },
            processingTime := elapsedMs }

/-- A concrete dataset row. -/
def rowA : Row := [("q", "query a"), ("a", "alpha"), ("y", "ya"),
  ("c1", "va"), ("c2", "wa")]

/-- A second concrete dataset row. -/
def rowB : Row := [("q", "query b"), ("a", "beta"), ("y", "yb"),
  ("c1", "vb"), ("c2", "wb")]

/-- A two-row dataset. -/
def demoData : List Row := [rowA, rowB]

/-- A legitimate sequence of Math.random shuffle outcomes: the first
per-combination call sees the rows one way round, every later call the
other way round; each outcome is a permutation of the dataset. -/
def demoShuffles : Nat → List Row :=
  fun i => if i = 0 then [rowA, rowB] else [rowB, rowA]

/-- A two-candidate-column configuration with a 50/50 split. -/
def demoConfig : TestConfiguration :=
  { tableId := "t1", tableName := "docs",
    selectedColumns := ["c1", "c2"],
    yColumn := "y", queryColumn := "q", answerColumn := "a",
    metricType := .brdr, trainingRatio := 1/2, testName := "demo" }

/-- An evaluation stage whose score depends on which rows form the
training segment (as real retrieval does). -/
def trainingSensitiveEval : EvalPhase :=
  fun _ training _ =>
    .ok { averageScore := if training = [rowA] then 1 else 0,
          totalTests := 1, trainingEmbeddings := 1, averageSimilarity := 1 }

/-- An evaluation stage giving every combination the same score. -/
def constantEval : EvalPhase :=
  fun _ _ _ =>
    .ok { averageScore := 1, totalTests := 1, trainingEmbeddings := 1,
          averageSimilarity := 1 }

/-- An evaluation stage in which the embedding provider throws while the
index for the combination named "c2" is being built. -/
def failOnC2Eval : EvalPhase :=
  fun comb _ _ =>
    if comb.name = "c2" then .error "Embedding provider failed"
    else
      .ok { averageScore := 1, totalTests := 1, trainingEmbeddings := 1,
            averageSimilarity := 1 }

/-- The singleton combination on column c1. -/
def combC1 : ColumnCombination := { columns := ["c1"], name := "c1" }

/-- The singleton combination on column c2. -/
def combC2 : ColumnCombination := { columns := ["c2"], name := "c2" }

/-- The two-column combination on c1 and c2. -/
def combC1C2 : ColumnCombination := { columns := ["c1", "c2"], name := "c1_c2" }

/-- A runtime JavaScript value as it exists in memory when `exportResults`
is called: JSON-shaped data plus `date` for Date objects (epoch
milliseconds). Numbers are exact rationals. -/
inductive JsValue where
  | null : JsValue
  | bool : Bool → JsValue
  | num : ℚ → JsValue
  | str : String → JsValue
  | date : Int → JsValue
  | arr : List JsValue → JsValue
  | obj : List (String × JsValue) → JsValue

/-- A JSON document (the information content of the text
`JSON.stringify` produces; the whitespace layout of the text itself is
lossless and not modelled). There is no date constructor: JSON has no
date type. -/
inductive Json where
  | null : Json
  | bool : Bool → Json
  | num : ℚ → Json
  | str : String → Json
  | arr : List Json → Json
  | obj : List (String × Json) → Json

mutual

/-- Value-level semantics of `JSON.stringify` (used by `exportResults`,
src/lib/core/testing-framework.ts lines 360-362): a Date serialises via
`Date.prototype.toJSON` to its ISO string, produced here by the
environment-supplied `d`. -/
def jsonOfValue (d : Int → String) : JsValue → Json
  | .null => .null
  | .bool b => .bool b
  | .num q => .num q
  | .str s => .str s
  | .date t => .str (d t)
  | .arr vs => .arr (jsonOfValueList d vs)
  | .obj fs => .obj (jsonOfValueFields d fs)

/-- `jsonOfValue` over an array's elements. -/
def jsonOfValueList (d : Int → String) : List JsValue → List Json
  | [] => []
  | v :: vs => jsonOfValue d v :: jsonOfValueList d vs

/-- `jsonOfValue` over an object's fields. -/
def jsonOfValueFields (d : Int → String) :
    List (String × JsValue) → List (String × Json)
  | [] => []
  | (k, v) :: fs => (k, jsonOfValue d v) :: jsonOfValueFields d fs

end

mutual

/-- Value-level semantics of `JSON.parse` (used by `importResults`,
lines 364-366): the parsed data is plain JSON data — no reviver runs, so
no Date objects are ever produced. -/
def valueOfJson : Json → JsValue
  | .null => .null
  | .bool b => .bool b
  | .num q => .num q
  | .str s => .str s
  | .arr js => .arr (valueOfJsonList js)
  | .obj fs => .obj (valueOfJsonFields fs)

/-- `valueOfJson` over an array's elements. -/
def valueOfJsonList : List Json → List JsValue
  | [] => []
  | j :: js => valueOfJson j :: valueOfJsonList js

/-- `valueOfJson` over an object's fields. -/
def valueOfJsonFields : List (String × Json) → List (String × JsValue)
  | [] => []
  | (k, j) :: fs => (k, valueOfJson j) :: valueOfJsonFields fs

end

mutual

/-- Replace every Date in a runtime value by its ISO string — the exact
information loss of a stringify/parse round trip. -/
def stripDates (d : Int → String) : JsValue → JsValue
  | .null => .null
  | .bool b => .bool b
  | .num q => .num q
  | .str s => .str s
  | .date t => .str (d t)
  | .arr vs => .arr (stripDatesList d vs)
  | .obj fs => .obj (stripDatesFields d fs)

/-- `stripDates` over an array's elements. -/
def stripDatesList (d : Int → String) : List JsValue → List JsValue
  | [] => []
  | v :: vs => stripDates d v :: stripDatesList d vs

/-- `stripDates` over an object's fields. -/
def stripDatesFields (d : Int → String) :
    List (String × JsValue) → List (String × JsValue)
  | [] => []
  | (k, v) :: fs => (k, stripDates d v) :: stripDatesFields d fs

end

mutual

/-- Whether a runtime value contains a Date anywhere. -/
def containsDate : JsValue → Bool
  | .null => false
  | .bool _ => false
  | .num _ => false
  | .str _ => false
  | .date _ => true
  | .arr vs => containsDateList vs
  | .obj fs => containsDateFields fs

/-- `containsDate` over an array's elements. -/
def containsDateList : List JsValue → Bool
  | [] => false
  | v :: vs => containsDate v || containsDateList vs

/-- `containsDate` over an object's fields. -/
def containsDateFields : List (String × JsValue) → Bool
  | [] => false
  | (_, v) :: fs => containsDate v || containsDateFields fs

end

/-- The runtime value of a ColumnCombination object. -/
def combinationValue (c : ColumnCombination) : JsValue :=
  .obj [("columns", .arr (c.columns.map JsValue.str)), ("name", .str c.name)]

/-- The runtime value of a (deterministic-field) TestResult object. -/
def testResultValue (t : TestResult) : JsValue :=
  .obj [("testName", .str t.testName),
        ("combination", combinationValue t.combination),
        ("averageScore", .num t.averageScore),
        ("totalTests", .num t.totalTests),
        ("trainingEmbeddings", .num t.trainingEmbeddings),
        ("averageSimilarity", .num t.averageSimilarity)]

/-- The runtime value of a TestConfiguration object. -/
def configurationValue (c : TestConfiguration) : JsValue :=
  .obj [("tableId", .str c.tableId),
        ("tableName", .str c.tableName),
        ("selectedColumns", .arr (c.selectedColumns.map JsValue.str)),
        ("yColumn", .str c.yColumn),
        ("queryColumn", .str c.queryColumn),
        ("answerColumn", .str c.answerColumn),
        ("metricType", .str (match c.metricType with
          | .sql => "sql"
          | .brdr => "brdr")),
        ("trainingRatio", .num c.trainingRatio),
        ("testName", .str c.testName)]

/-- The runtime value of the summary block. -/
def summaryValue (s : ExperimentSummary) : JsValue :=
  .obj [("bestCombination", combinationValue s.bestCombination),
        ("bestScore", .num s.bestScore),
        ("worstCombination", combinationValue s.worstCombination),
        ("worstScore", .num s.worstScore),
        ("averageScore", .num s.averageScore),
        ("totalCombinations", .num s.totalCombinations)]

/-- The runtime value of an ExperimentResults record, field order as in
runFullExperiment's return object (lines 149-157); the timestamp field
holds a Date object. -/
def experimentResultsValue (r : ExperimentResults) : JsValue :=
  .obj [("experimentId", .str r.experimentId),
        ("testName", .str r.testName),
        ("timestamp", .date r.timestamp),
        ("configuration", configurationValue r.configuration),
        ("allResults", .arr (r.allResults.map testResultValue)),
        ("summary", summaryValue r.summary),
        ("processingTime", .num r.processingTime)]

/-- Embedding of `exportResults` (lines 360-362):
`JSON.stringify(results, null, 2)` on the runtime value of the record,
with the environment's Date-to-ISO-string conversion `d`. -/
def exportResults (d : Int → String) (r : ExperimentResults) : Json :=
  jsonOfValue d (experimentResultsValue r)

/-- Embedding of `importResults` (lines 364-366): `JSON.parse` of the
exported text; the result is the parsed runtime value (the source merely
casts it to ExperimentResults without conversion). -/
def importResults (j : Json) : JsValue :=
  valueOfJson j

/-- A concrete Date-to-ISO-string conversion for witnesses. -/
def demoDateString : Int → String := fun t => "iso:" ++ toString t

/-- The experiment output of the constant-score demo run. -/
def demoRunOutput : ExperimentResults :=
  { experimentId := "exp", testName := "demo", timestamp := 5,
    configuration := demoConfig,
    allResults :=
      [{ testName := "demo", combination := combC1, averageScore := 1,
         totalTests := 1, trainingEmbeddings := 1, averageSimilarity := 1 },
       { testName := "demo", combination := combC2, averageScore := 1,
         totalTests := 1, trainingEmbeddings := 1, averageSimilarity := 1 },
       { testName := "demo", combination := combC1C2, averageScore := 1,
         totalTests := 1, trainingEmbeddings := 1, averageSimilarity := 1 }],
    summary := { bestCombination := combC1, bestScore := 1,
                 worstCombination := combC1, worstScore := 1,
                 averageScore := 1, totalCombinations := 3 },
    processingTime := 7 }

/-- Whether a character is a regex word character `\w` ([A-Za-z0-9_]). -/
def isWordChar (c : Char) : Bool := c.isAlphanum || c = '_'

/-- Maximal runs of characters satisfying `p`. -/
def runsAux (p : Char → Bool) : List Char → List Char → List (List Char)
  | acc, [] => if acc.isEmpty then [] else [acc.reverse]
  | acc, c :: cs =>
      if p c then runsAux p (c :: acc) cs
      else if acc.isEmpty then runsAux p [] cs
      else acc.reverse :: runsAux p [] cs

/-- The maximal `p`-runs of a string, as strings. -/
def tokensBy (p : Char → Bool) (s : String) : List String :=
  (runsAux p [] s.data).map (fun l => ⟨l⟩)

/-- The `\w+` tokens of a string — what word-boundary regexes see. -/
def wordTokens (s : String) : List String := tokensBy isWordChar s

/-- The whitespace-separated tokens of a string. -/
def spaceTokens (s : String) : List String :=
  tokensBy (fun c => !c.isWhitespace) s

/-- Whether the word tokens of `phrase` occur as a contiguous run of `ws`. -/
def phraseOccurs (phrase : List String) : List String → Bool
  | [] => phrase.isEmpty
  | w :: ws => phrase.isPrefixOf (w :: ws) || phraseOccurs phrase ws

/-- Word-level model of the case-insensitive word-boundary regex test
`new RegExp("\\b" + term + "\\b", "i").test(text)`: both sides are
lower-cased and the term's word tokens must appear consecutively among
the text's word tokens. -/
def termPresent (term text : String) : Bool :=
  phraseOccurs (wordTokens (jsToLower term)) (wordTokens (jsToLower text))

/-- The coarse semantic classification of the domain-document metric. -/
inductive SemanticClass where
  | regulatory
  | procedural
  | informational
  | technical
  | mixed
  deriving DecidableEq, Repr

/-- `regulatoryTerms` of BRDRMetricCalculator (brdr-metric.ts lines 60-64). -/
def regulatoryTermsList : List String :=
  ["supervision", "compliance", "regulation", "guideline", "policy", "framework",
   "oversight", "monitoring", "assessment", "evaluation", "audit", "review",
   "standard", "requirement", "procedure", "process", "control", "governance"]

/-- `riskTerms` (lines 66-69). -/
def riskTermsList : List String :=
  ["risk", "exposure", "mitigation", "management", "control", "assessment",
   "monitoring", "reporting", "measurement", "analysis", "evaluation", "treatment"]

/-- `complianceTerms` (lines 71-74). -/
def complianceTermsList : List String :=
  ["adherence", "conformity", "compliance", "violation", "breach", "exception",
   "deviation", "non-compliance", "remediation", "corrective", "preventive"]

/-- `documentTypes` (lines 76-79). -/
def documentTypesList : List String :=
  ["regulation", "guideline", "circular", "directive", "notice", "instruction",
   "manual", "handbook", "standard", "procedure", "policy", "framework"]

/-- The procedural vocabulary of classifySemanticType (line 247). -/
def proceduralTermsList : List String :=
  ["step", "process", "procedure", "method", "approach", "methodology"]

/-- The technical vocabulary of classifySemanticType (line 252). -/
def technicalTermsList : List String :=
  ["system", "model", "calculation", "formula", "algorithm", "methodology"]

/-- A vocabulary-hit score as the source computes it: a reduce over the
term list adding 1 for every term present in the text (lines 243-255). -/
def termHitScore (terms : List String) (text : String) : Nat :=
  terms.foldl (fun score term => score + (if termPresent term text then 1 else 0)) 0

/-- Embedding of `classifySemanticType` (brdr-metric.ts lines 242-262). -/
def classifySemanticType (text : String) : SemanticClass :=
  let regulatoryScore := termHitScore regulatoryTermsList text
  let proceduralScore := termHitScore proceduralTermsList text
  let technicalScore := termHitScore technicalTermsList text
  if 3 ≤ regulatoryScore then .regulatory
  else if 2 ≤ proceduralScore then .procedural
  else if 2 ≤ technicalScore then .technical
  else if 0 < regulatoryScore ∨ 0 < proceduralScore ∨ 0 < technicalScore then .mixed
  else .informational

/-- The number of distinct vocabulary terms of `terms` occurring in the
text. -/
def distinctHits (terms : List String) (text : String) : Nat :=
  (terms.filter (fun t => termPresent t text)).length

/-- The alternatives of the 15 `topicPatterns` regexes of
`extractRegulatoryTopics` (lines 142-159), flattened in pattern order;
optional suffixes and bounded numeral classes are expanded, and the
`[\-\s]` separators appear in word-token form. -/
def topicAlternativesList : List String :=
  ["capital adequacy", "capital requirements", "capital requirement",
   "liquidity management", "liquidity risk",
   "credit risk", "operational risk", "market risk",
   "basel i", "basel ii", "basel iii", "basel 1", "basel 2", "basel 3",
   "basel accord",
   "stress testing", "stress test", "scenario analysis",
   "anti money laundering", "aml",
   "know your customer", "kyc",
   "corporate governance",
   "internal controls", "internal control",
   "risk management",
   "prudential regulation",
   "financial reporting",
   "consumer protection",
   "data protection", "privacy",
   "cybersecurity", "information security"]

/-- Embedding of `extractRegulatoryTopics` (lines 141-170): the matched
topic phrases, lower-cased and de-duplicated. -/
def extractRegulatoryTopics (text : String) : List String :=
  jsSet (topicAlternativesList.filter (fun alt => termPresent alt text))

/-- The alternatives of the 10 `conceptPatterns` regexes of
`extractBankingConcepts` (lines 173-185), flattened in pattern order. -/
def conceptAlternativesList : List String :=
  ["tier 1 capital", "tier 2 capital", "tier 3 capital", "regulatory capital",
   "risk weighted assets", "risk weighted asset", "rwa",
   "leverage ratio", "capital ratio",
   "provisioning", "provision", "impairment",
   "derivative", "swap", "option", "future",
   "collateral", "security", "guarantee",
   "exposure", "counterparty", "concentration",
   "valuation", "fair value", "mark to market",
   "hedge", "hedging", "netting",
   "maturity", "duration", "tenor"]

/-- Embedding of `extractBankingConcepts` (lines 172-196). -/
def extractBankingConcepts (text : String) : List String :=
  jsSet (conceptAlternativesList.filter (fun alt => termPresent alt text))

/-- The stop-word set of `isStopWord` (lines 264-272). -/
def stopWordsList : List String :=
  ["the", "and", "or", "but", "in", "on", "at", "to", "for", "of", "with",
   "by", "from", "as", "is", "was", "are", "were", "be", "been", "have",
   "has", "had", "do", "does", "did", "will", "would", "could", "should",
   "may", "might", "can", "shall", "must", "this", "that", "these", "those"]

/-- `isStopWord` (lines 264-272). -/
def isStopWord (w : String) : Bool := w ∈ stopWordsList

/-- The curated banking vocabulary of `getDomainWeight` (lines 281-284). -/
def bankingTermsList : List String :=
  ["bank", "banking", "financial", "institution", "credit", "loan", "deposit",
   "capital", "asset", "liability", "equity", "revenue", "income", "profit"]

/-- Embedding of `getDomainWeight` (lines 274-288). -/
def getDomainWeight (word : String) : ℚ :=
  if word ∈ regulatoryTermsList then 3
  else if word ∈ riskTermsList then 2.5
  else if word ∈ complianceTermsList then 2.5
  else if word ∈ documentTypesList then 2
  else if word ∈ bankingTermsList then 2
  else 1

/-- One `frequency[normalized] = (frequency[normalized] || 0) + 1` update
of the insertion-ordered frequency table. -/
def bumpFreq : List (String × Nat) → String → List (String × Nat)
  | [], w => [(w, 1)]
  | (k, n) :: rest, w =>
      if k = w then (k, n + 1) :: rest else (k, n) :: bumpFreq rest w

/-- Insert a scored word into a descending-sorted list, after earlier
elements of greater-or-equal score (so earlier entries stay first on
ties). -/
def insertScoredDesc (x : String × ℚ) : List (String × ℚ) → List (String × ℚ)
  | [] => [x]
  | y :: ys => if y.2 ≤ x.2 then x :: y :: ys else y :: insertScoredDesc x ys

/-- Stable descending sort by score, the behaviour of the JS stable
`sort((a, b) => b.score - a.score)`. -/
def sortScoredDesc : List (String × ℚ) → List (String × ℚ)
  | [] => []
  | x :: xs => insertScoredDesc x (sortScoredDesc xs)

/-- Embedding of `extractDomainKeywords` (lines 198-222): count the
non-stop-word `\w{4,}` tokens in first-occurrence order, score each word
as frequency × domain weight, stable-sort descending by score (JS
`sort((a,b) => b.score - a.score)`), and keep the top 15 words. -/
def extractDomainKeywords (text : String) : List String :=
  let words := (wordTokens text).filter (fun w => 4 ≤ w.length)
  let frequency := words.foldl
    (fun tbl w =>
      let normalized := jsToLower w
      if isStopWord normalized then tbl else bumpFreq tbl normalized) []
  let scored := frequency.map (fun p => (p.1, (p.2 : ℚ) * getDomainWeight p.1))
  let sorted := sortScoredDesc scored
  (sorted.take 15).map (fun p => p.1)

/-- Whether a raw token matches the document-code pattern
`[A-Z]{2,5}[\-]?\d{1,4}[\-]?\d{0,4}` in full. -/
def isDocCode (w : String) : Bool :=
  let cs := w.data
  let letters := cs.takeWhile (fun c => c.isUpper)
  if letters.length < 2 || 5 < letters.length then false
  else
    let rest := cs.drop letters.length
    let rest1 := if rest.head? = some '-' then rest.tail else rest
    let digits1 := rest1.takeWhile Char.isDigit
    if digits1.length < 1 || 4 < digits1.length then false
    else
      let rest2 := rest1.drop digits1.length
      let rest3 := if rest2.head? = some '-' then rest2.tail else rest2
      let digits2 := rest3.takeWhile Char.isDigit
      decide (digits2.length ≤ 4) && (rest3.drop digits2.length).isEmpty

/-- Whether a token is made of 2-5 uppercase letters. -/
def isUpperCode (w : String) : Bool :=
  w.data.all Char.isUpper && decide (2 ≤ w.length) && decide (w.length ≤ 5)

/-- Whether a token is 1-4 digits. -/
def isShortNumber (w : String) : Bool :=
  w.data.all Char.isDigit && decide (1 ≤ w.length) && decide (w.length ≤ 4)

/-- Whether a token matches `\d+(\.\d+)*`. -/
def isDottedNumber (w : String) : Bool :=
  let groups := (runsAux (fun c => c ≠ '.') [] w.data).map (fun l => (⟨l⟩ : String))
  !groups.isEmpty && groups.all (fun g => !g.isEmpty && g.data.all Char.isDigit)
    && w.data.all (fun c => c.isDigit || c = '.')

/-- Whether a token is `[A-Z\d]+`. -/
def isAnnexLabel (w : String) : Bool :=
  !w.isEmpty && w.data.all (fun c => c.isUpper || c.isDigit)

/-- The adjacent token pairs of a list. -/
def tokenPairs : List String → List (String × String)
  | [] => []
  | [_] => []
  | a :: b :: rest => (a, b) :: tokenPairs (b :: rest)

/-- Embedding of `extractDocumentReferences` (lines 224-240) at raw-token
granularity: document codes (one token, or an uppercase code followed by a
short number), `section|clause|paragraph|article N(.N)*`, and
`appendix|annex|schedule LABEL`; matches are trimmed and de-duplicated. -/
def extractDocumentReferences (text : String) : List String :=
  let toks := spaceTokens text
  let pairs := tokenPairs toks
  let codes := toks.filter isDocCode
    ++ (pairs.filter (fun p => isUpperCode p.1 && isShortNumber p.2)).map
        (fun p => p.1 ++ " " ++ p.2)
  let sectionRefs := (pairs.filter (fun p =>
      jsToLower p.1 ∈ ["section", "clause", "paragraph", "article"] &&
        isDottedNumber p.2)).map (fun p => p.1 ++ " " ++ p.2)
  let annexRefs := (pairs.filter (fun p =>
      jsToLower p.1 ∈ ["appendix", "annex", "schedule"] &&
        isAnnexLabel p.2)).map (fun p => p.1 ++ " " ++ p.2)
  jsSet (codes ++ sectionRefs ++ annexRefs)

/-- Extractor output of the domain-document metric (BRDRAnalysis,
brdr-metric.ts lines 18-27). -/
structure BRDRAnalysis where
  documentTypes : List String
  regulatoryTopics : List String
  concepts : List String
  keywords : List String
  complianceTerms : List String
  riskFactors : List String
  documentReferences : List String
  semanticClass : SemanticClass
  deriving DecidableEq, Repr

/-- Embedding of `extractBRDRFeatures` (lines 96-139). -/
def extractBRDRFeatures (text : String) : BRDRAnalysis :=
  let normalizedText := jsToLower text
  { documentTypes := documentTypesList.filter (fun t => termPresent t text),
    regulatoryTopics := extractRegulatoryTopics normalizedText,
    concepts := extractBankingConcepts normalizedText,
    keywords := extractDomainKeywords normalizedText,
    complianceTerms := complianceTermsList.filter (fun t => termPresent t text),
    riskFactors := riskTermsList.filter (fun t => termPresent t text),
    documentReferences := extractDocumentReferences text,
    semanticClass := classifySemanticType normalizedText }

/-- Default weights of BRDRMetricCalculator (lines 83-92). -/
structure BRDRWeights where
  semanticSimilarity : ℚ
  documentRelevance : ℚ
  conceptAccuracy : ℚ
  topicAlignment : ℚ
  keywordPresence : ℚ
  regulatoryCompliance : ℚ
  contextualCoherence : ℚ
  deriving DecidableEq, Repr

/-- The default BRDR weights (0.20/0.15/0.15/0.15/0.10/0.15/0.10). -/
def defaultBRDRWeights : BRDRWeights :=
  { semanticSimilarity := 0.20, documentRelevance := 0.15,
    conceptAccuracy := 0.15, topicAlignment := 0.15,
    keywordPresence := 0.10, regulatoryCompliance := 0.15,
    contextualCoherence := 0.10 }

/-- Breakdown block of BRDRMetricResult. -/
structure BRDRBreakdown where
  semanticSimilarityScore : ℚ
  documentRelevanceScore : ℚ
  conceptAccuracyScore : ℚ
  topicAlignmentScore : ℚ
  keywordPresenceScore : ℚ
  regulatoryComplianceScore : ℚ
  contextualCoherenceScore : ℚ
  deriving DecidableEq, Repr

/-- Result of BRDRMetricCalculator.calculate (lines 29-54), with analysis
and details. -/
structure BRDRMetricResult where
  overallScore : ℚ
  breakdown : BRDRBreakdown
  expectedAnalysis : BRDRAnalysis
  actualAnalysis : BRDRAnalysis
  missingConcepts : List String
  extraConcepts : List String
  missingTopics : List String
  extraTopics : List String
  missingKeywords : List String
  extraKeywords : List String
  semanticClassMatch : Bool
  regulatoryTermsAlignment : ℚ
  deriving DecidableEq, Repr

/-- Embedding of `calculateSemanticSimilarity` (lines 308-315). -/
def calculateSemanticSimilarity (expected actual : BRDRAnalysis) : ℚ :=
  let conceptSim := (calculateArraySimilarity expected.concepts actual.concepts).score
  let topicSim := (calculateArraySimilarity expected.regulatoryTopics
    actual.regulatoryTopics).score
  let keywordSim := (calculateArraySimilarity expected.keywords actual.keywords).score
  conceptSim * 0.4 + topicSim * 0.4 + keywordSim * 0.2

/-- Embedding of `BRDRMetricCalculator.calculate` (lines 317-396). -/
def brdrCalculate (w : BRDRWeights) (expectedText actualText : String) :
    BRDRMetricResult :=
  let expectedAnalysis := extractBRDRFeatures expectedText
  let actualAnalysis := extractBRDRFeatures actualText
  let semanticSimilarityScore := calculateSemanticSimilarity expectedAnalysis actualAnalysis
  let documentRelevanceScore := (calculateArraySimilarity
    expectedAnalysis.documentTypes actualAnalysis.documentTypes).score
  let conceptComparison := calculateArraySimilarity
    expectedAnalysis.concepts actualAnalysis.concepts
  let topicComparison := calculateArraySimilarity
    expectedAnalysis.regulatoryTopics actualAnalysis.regulatoryTopics
  let keywordComparison := calculateArraySimilarity
    expectedAnalysis.keywords actualAnalysis.keywords
  let regulatoryComplianceScore := (calculateArraySimilarity
    (expectedAnalysis.complianceTerms ++ expectedAnalysis.riskFactors)
    (actualAnalysis.complianceTerms ++ actualAnalysis.riskFactors)).score
  let semanticClassMatch := expectedAnalysis.semanticClass == actualAnalysis.semanticClass
  let contextualCoherenceScore : ℚ := if semanticClassMatch then 1 else 0.5
  let expectedRegTerms := expectedAnalysis.complianceTerms ++ expectedAnalysis.riskFactors
  let actualRegTerms := actualAnalysis.complianceTerms ++ actualAnalysis.riskFactors
  let regulatoryTermsAlignment : ℚ :=
    if expectedRegTerms.length = 0 then 1
    else ((actualRegTerms.filter (fun t => t ∈ expectedRegTerms)).length : ℚ) /
      (expectedRegTerms.length : ℚ)
  let breakdown : BRDRBreakdown :=
    { semanticSimilarityScore := semanticSimilarityScore,
      documentRelevanceScore := documentRelevanceScore,
      conceptAccuracyScore := conceptComparison.score,
      topicAlignmentScore := topicComparison.score,
      keywordPresenceScore := keywordComparison.score,
      regulatoryComplianceScore := regulatoryComplianceScore,
      contextualCoherenceScore := contextualCoherenceScore }
  let overallScore :=
    breakdown.semanticSimilarityScore * w.semanticSimilarity +
    breakdown.documentRelevanceScore * w.documentRelevance +
    breakdown.conceptAccuracyScore * w.conceptAccuracy +
    breakdown.topicAlignmentScore * w.topicAlignment +
    breakdown.keywordPresenceScore * w.keywordPresence +
    breakdown.regulatoryComplianceScore * w.regulatoryCompliance +
    breakdown.contextualCoherenceScore * w.contextualCoherence
  { overallScore := max 0 (min 1 overallScore),
    breakdown := breakdown,
    expectedAnalysis := expectedAnalysis,
    actualAnalysis := actualAnalysis,
    missingConcepts := conceptComparison.missing,
    extraConcepts := conceptComparison.extra,
    missingTopics := topicComparison.missing,
    extraTopics := topicComparison.extra,
    missingKeywords := keywordComparison.missing,
    extraKeywords := keywordComparison.extra,
    semanticClassMatch := semanticClassMatch,
    regulatoryTermsAlignment := regulatoryTermsAlignment }

/-- `query.replace(/\s+/g, ' ')`: each maximal whitespace run becomes one
space. The Bool argument records whether the previous character was
whitespace. -/
def collapseWsAux : Bool → List Char → List Char
  | _, [] => []
  | prevWs, c :: cs =>
      if c.isWhitespace then
        if prevWs then collapseWsAux true cs
        else ' ' :: collapseWsAux true cs
      else c :: collapseWsAux false cs

/-- Whitespace collapsing on strings. -/
def collapseWs (s : String) : String := ⟨collapseWsAux false s.data⟩

/-- `query.replace(/;$/, '')`: drop one trailing semicolon. -/
def stripTrailingSemicolon (s : String) : String :=
  if s.data.getLast? = some ';' then ⟨s.data.dropLast⟩ else s

/-- JS `trim()`: drop leading and trailing whitespace. -/
def jsTrim (s : String) : String :=
  ⟨((s.data.dropWhile Char.isWhitespace).reverse.dropWhile
    Char.isWhitespace).reverse⟩

/-- Embedding of `extractSQL` (sql-metric module, lines 66-73): collapse
whitespace, drop a trailing semicolon, trim and lower-case. -/
def extractSQL (query : String) : String :=
  jsToLower (jsTrim (stripTrailingSemicolon (collapseWs query)))

/-- What `extractFromAST` (lines 114-130) reads out of a successful parse:
the referenced table and column names. -/
structure ParsedAst where
  tables : List String
  columns : List String
  deriving DecidableEq, Repr

/-- The strict parser: the external sql-parser-cst `parse` composed with
`extractFromAST`, supplied by the environment; `none` models `parse`
throwing. -/
abbrev SqlParser := String → Option ParsedAst

/-- Embedding of the SQLAnalysis record (lines 14-21). -/
structure SQLAnalysis where
  tables : List String
  columns : List String
  joins : List String
  keywords : List String
  isValid : Bool
  parseErrors : List String
  deriving DecidableEq, Repr

/-- The SQL keyword vocabulary of `extractKeywords` (lines 178-184). -/
def sqlKeywordsList : List String :=
  ["select", "from", "where", "join", "inner", "left", "right", "full", "cross",
   "on", "group", "by", "having", "order", "limit", "offset", "union", "except",
   "intersect", "insert", "update", "delete", "create", "drop", "alter", "index",
   "view", "distinct", "count", "sum", "avg", "min", "max", "case", "when", "then",
   "else", "end", "and", "or", "not", "in", "exists", "like", "between", "is", "null"]

/-- Embedding of `extractKeywords` (lines 177-189): the keywords present
in the cleaned query under a word-boundary test. -/
def extractKeywords (query : String) : List String :=
  sqlKeywordsList.filter (fun kw => termPresent kw query)

/-- Whether a token can be the identifier `[a-zA-Z_][a-zA-Z0-9_]*` a table
regex captures. -/
def isSqlIdent (w : String) : Bool :=
  match w.data with
  | [] => false
  | c :: _ => c.isAlpha || c = '_'

/-- The identifiers following an occurrence of `kw` in the token list —
the captures of the `kw\s+([a-zA-Z_][a-zA-Z0-9_]*)` table patterns of
`extractWithRegex` (lines 134-153). -/
def identsAfter (kw : String) : List String → List String
  | [] => []
  | [_] => []
  | a :: b :: rest =>
      if a = kw && isSqlIdent b then b :: identsAfter kw (b :: rest)
      else identsAfter kw (b :: rest)

/-- The join phrases of `extractWithRegex` (line 158). -/
def joinTypesList : List String :=
  ["inner join", "left join", "right join", "full join", "cross join", "join"]

/-- JS `String.prototype.includes`: raw substring containment. -/
def substrOccurs (needle hay : String) : Bool :=
  go needle.data hay.data
where
  go (pat : List Char) : List Char → Bool
    | [] => pat.isEmpty
    | c :: cs => pat.isPrefixOf (c :: cs) || go pat cs

/-- The token list after the first occurrence of `kw`, if any. -/
def afterFirstToken (kw : String) : List String → Option (List String)
  | [] => none
  | t :: rest => if t = kw then some rest else afterFirstToken kw rest

/-- The capture of the lazy `select\s+(.*?)\s+from` scan (lines 164-165)
at space-token granularity: the tokens strictly between the first `select`
and the next `from`, rejoined with single spaces; none when the pattern
does not match. -/
def selectColumnsPart (query : String) : Option String :=
  match afterFirstToken "select" (spaceTokens query) with
  | none => none
  | some rest =>
      if rest.contains "from" then
        some (String.intercalate " " (rest.takeWhile (fun t => t ≠ "from")))
      else none

/-- JS `split(',')` on a string. -/
def splitOnCommaAux : List Char → List Char → List String
  | acc, [] => [(⟨acc.reverse⟩ : String)]
  | acc, c :: cs =>
      if c = ',' then (⟨acc.reverse⟩ : String) :: splitOnCommaAux [] cs
      else splitOnCommaAux (c :: acc) cs

/-- JS `split(',')`. -/
def splitOnComma (s : String) : List String := splitOnCommaAux [] s.data

/-- `col.replace(/.*\./, '')`: the greedy `.*` eats up to the last dot, so
the part after the last dot remains (the whole string when there is no
dot). -/
def afterLastDot (s : String) : String :=
  ⟨(s.data.reverse.takeWhile (fun c => c ≠ '.')).reverse⟩

/-- Index of the first occurrence of `pat` as a sublist, if any. -/
def idxOfSublist (pat : List Char) : List Char → Option Nat
  | [] => if pat.isEmpty then some 0 else none
  | c :: cs =>
      if pat.isPrefixOf (c :: cs) then some 0
      else (idxOfSublist pat cs).map (fun n => n + 1)

/-- `col.replace(/\s+as\s+.*/, '')` on an already whitespace-collapsed
column string: cut at the first " as " occurrence. -/
def stripAsAlias (s : String) : String :=
  match idxOfSublist " as ".data s.data with
  | none => s
  | some i => ⟨s.data.take i⟩

/-- The column list of the regex fallback (lines 163-174): split the
captured part on commas, trim, drop a table qualifier, strip an alias, and
keep non-empty non-star entries; a `*` capture or no match yields no
columns. -/
def regexColumns (query : String) : List String :=
  match selectColumnsPart query with
  | none => []
  | some part =>
      if part = "*" then []
      else ((splitOnComma part).map
        (fun col => stripAsAlias (afterLastDot (jsTrim col)))).filter
        (fun col => col ≠ "" && col ≠ "*")

/-- Embedding of `extractWithRegex` (lines 132-175): tables from the
from/join/update/into patterns (JS-Set de-duplicated in scan order), join
phrases by substring containment, and the select-clause column list. -/
def extractWithRegex (query : String) : SQLAnalysis :=
  let ws := wordTokens query
  let tables := jsSet (identsAfter "from" ws ++ identsAfter "join" ws ++
    identsAfter "update" ws ++ identsAfter "into" ws)
  let joins := joinTypesList.filter (fun jt => substrOccurs jt query)
  { tables := tables, columns := regexColumns query, joins := joins,
    keywords := [], isValid := false, parseErrors := [] }

/-- Embedding of `analyzeSQL` (lines 75-112): clean the query, try the
strict parser (tables/columns from the AST on success), fall back to the
regex extraction on a parse error, and always collect the keywords of the
cleaned query. -/
def analyzeSQL (parse : SqlParser) (query : String) : SQLAnalysis :=
  let cleanQuery := extractSQL query
  match parse cleanQuery with
  | some ast =>
      { tables := ast.tables, columns := ast.columns, joins := [],
        keywords := extractKeywords cleanQuery, isValid := true,
        parseErrors := [] }
  | none =>
      let fallback := extractWithRegex cleanQuery
      { fallback with
          keywords := extractKeywords cleanQuery,
          isValid := false,
          parseErrors := ["parse error"] }

/-- Default weights of SQLMetricCalculator (lines 52-64). -/
structure SQLWeights where
  tables : ℚ
  columns : ℚ
  joins : ℚ
  sqlSyntax : ℚ
  keywords : ℚ
  differences : ℚ
  deriving DecidableEq, Repr

/-- The default SQL weights (0.25/0.25/0.20/0.15/0.10/0.05); the weights
record's `syntax` key is named `sqlSyntax` here. -/
def defaultSQLWeights : SQLWeights :=
  { tables := 0.25, columns := 0.25, joins := 0.20, sqlSyntax := 0.15,
    keywords := 0.10, differences := 0.05 }

/-- Breakdown block of SQLMetricResult (lines 25-32); the `syntaxScore`
field is named `sqlSyntaxScore` here. -/
structure SQLBreakdown where
  tablesScore : ℚ
  columnsScore : ℚ
  joinsScore : ℚ
  sqlSyntaxScore : ℚ
  keywordsScore : ℚ
  differencesScore : ℚ
  deriving DecidableEq, Repr

/-- Result of SQLMetricCalculator.calculate (lines 23-47). -/
structure SQLMetricResult where
  overallScore : ℚ
  breakdown : SQLBreakdown
  expectedAnalysis : SQLAnalysis
  actualAnalysis : SQLAnalysis
  missingTables : List String
  extraTables : List String
  missingColumns : List String
  extraColumns : List String
  missingJoins : List String
  extraJoins : List String
  missingKeywords : List String
  extraKeywords : List String
  deriving DecidableEq, Repr

/-- Embedding of `SQLMetricCalculator.calculate` (lines 209-279). -/
def sqlCalculate (parse : SqlParser) (w : SQLWeights)
    (expectedSQL actualSQL : String) : SQLMetricResult :=
  let expectedAnalysis := analyzeSQL parse expectedSQL
  let actualAnalysis := analyzeSQL parse actualSQL
  let tablesComparison := sqlCalculateArraySimilarity
    expectedAnalysis.tables actualAnalysis.tables
  let columnsComparison := sqlCalculateArraySimilarity
    expectedAnalysis.columns actualAnalysis.columns
  let joinsComparison := sqlCalculateArraySimilarity
    expectedAnalysis.joins actualAnalysis.joins
  let keywordsComparison := sqlCalculateArraySimilarity
    expectedAnalysis.keywords actualAnalysis.keywords
  let sqlSyntaxScore : ℚ := if actualAnalysis.isValid then 1 else 0
  let totalDifferences : Nat :=
    tablesComparison.missing.length + tablesComparison.extra.length +
    columnsComparison.missing.length + columnsComparison.extra.length +
    joinsComparison.missing.length + joinsComparison.extra.length +
    keywordsComparison.missing.length + keywordsComparison.extra.length
  let differencesScore : ℚ := max 0 (1 - (totalDifferences : ℚ) * 0.1)
  let breakdown : SQLBreakdown :=
    { tablesScore := tablesComparison.score,
      columnsScore := columnsComparison.score,
      joinsScore := joinsComparison.score,
      sqlSyntaxScore := sqlSyntaxScore,
      keywordsScore := keywordsComparison.score,
      differencesScore := differencesScore }
  let overallScore :=
    breakdown.tablesScore * w.tables +
    breakdown.columnsScore * w.columns +
    breakdown.joinsScore * w.joins +
    breakdown.sqlSyntaxScore * w.sqlSyntax +
    breakdown.keywordsScore * w.keywords +
    breakdown.differencesScore * w.differences
  { overallScore := max 0 (min 1 overallScore),
    breakdown := breakdown,
    expectedAnalysis := expectedAnalysis,
    actualAnalysis := actualAnalysis,
    missingTables := tablesComparison.missing,
    extraTables := tablesComparison.extra,
    missingColumns := columnsComparison.missing,
    extraColumns := columnsComparison.extra,
    missingJoins := joinsComparison.missing,
    extraJoins := joinsComparison.extra,
    missingKeywords := keywordsComparison.missing,
    extraKeywords := keywordsComparison.extra }

end RagTesting

open RagTesting

/-- C3 counterexample: a configuration with six selected columns passes
validation (`isValid = true`); the oversized candidate set only produces a
warning, so the claim that it is reported as a fatal error is false. -/
theorem C3_six_columns_counterexample :
    5 < sixColumnConfig.selectedColumns.length ∧
    (validateConfiguration demoGetTableInfo sixColumnConfig).isValid = true ∧
    (validateConfiguration demoGetTableInfo sixColumnConfig).errors = [] := by
  refine ⟨by decide, ?_, ?_⟩ <;>
    · norm_num [validateConfiguration, demoGetTableInfo, sixColumnConfig,
        demoTableInfo, columnNamesOf]

/-- C3 amended: a candidate set with more than 5 columns yields the
"More than 5 columns selected" warning, while `isValid` is simply
"no errors were recorded" — the size cap never contributes an error. -/
theorem C3_oversized_candidate_set_warns (getTableInfo : String → Option TableInfo)
    (config : TestConfiguration) (ti : TableInfo)
    (h : getTableInfo config.tableName = some ti)
    (h5 : 5 < config.selectedColumns.length) :
    "More than 5 columns selected - this may result in many combinations and slow processing"
      ∈ (validateConfiguration getTableInfo config).warnings ∧
    ((validateConfiguration getTableInfo config).isValid = true ↔
      (validateConfiguration getTableInfo config).errors = []) := by
  unfold validateConfiguration
  rw [h]
  constructor
  · simp [if_pos h5]
  · simp

/-- Witness for C3 amended, at the six-column configuration. -/
theorem C3_oversized_candidate_set_warns_witness :
    "More than 5 columns selected - this may result in many combinations and slow processing"
      ∈ (validateConfiguration demoGetTableInfo sixColumnConfig).warnings :=
  (C3_oversized_candidate_set_warns demoGetTableInfo sixColumnConfig demoTableInfo
    (by decide) (by decide)).1

/-- C4 counterexample: a configuration whose target column `y` is also in
the candidate set passes validation — no duplicate-target check exists. -/
theorem C4_duplicate_target_counterexample :
    duplicateTargetConfig.yColumn ∈ duplicateTargetConfig.selectedColumns ∧
    (validateConfiguration demoGetTableInfo duplicateTargetConfig).isValid = true := by
  refine ⟨by decide, ?_⟩
  norm_num [validateConfiguration, demoGetTableInfo, duplicateTargetConfig,
    demoTableInfo, columnNamesOf]

/-- C4 amended: validateConfiguration performs no target-duplication check;
even when the target column is among the candidates, validation succeeds as
long as every referenced column exists, at least one candidate is selected
and the training ratio lies strictly between 0 and 1. -/
theorem C4_no_duplicate_target_check (getTableInfo : String → Option TableInfo)
    (config : TestConfiguration) (ti : TableInfo)
    (h : getTableInfo config.tableName = some ti)
    (hdup : config.yColumn ∈ config.selectedColumns)
    (hcols : ∀ c ∈ config.selectedColumns, c ∈ columnNamesOf ti)
    (hy : config.yColumn ∈ columnNamesOf ti)
    (hq : config.queryColumn ∈ columnNamesOf ti)
    (ha : config.answerColumn ∈ columnNamesOf ti)
    (hne : config.selectedColumns ≠ [])
    (hr0 : 0 < config.trainingRatio) (hr1 : config.trainingRatio < 1) :
    (validateConfiguration getTableInfo config).isValid = true := by
  unfold validateConfiguration
  rw [h]
  have hfilter : config.selectedColumns.filter
      (fun c => c ∉ columnNamesOf ti) = [] := by
    rw [List.filter_eq_nil_iff]
    intro c hc
    simpa using hcols c hc
  have hlen : ¬ config.selectedColumns.length = 0 := by
    simpa [List.length_eq_zero] using hne
  have hratio : ¬ (config.trainingRatio ≤ 0 ∨ 1 ≤ config.trainingRatio) := by
    push_neg
    exact ⟨hr0, hr1⟩
  simp [hfilter, hy, hq, ha, hlen, hratio]
  exact hcols

/-- Witness for C4 amended, at the duplicate-target configuration. -/
theorem C4_no_duplicate_target_check_witness :
    (validateConfiguration demoGetTableInfo duplicateTargetConfig).isValid = true :=
  C4_no_duplicate_target_check demoGetTableInfo duplicateTargetConfig demoTableInfo
    (by decide) (by decide) (by decide) (by decide) (by decide) (by decide)
    (by decide) (by norm_num [duplicateTargetConfig])
    (by norm_num [duplicateTargetConfig])

/-- C7: the shared set-similarity primitive (identical in both scoring
engines) compares the lower-cased de-duplicated sets; its score is
|intersection| / |union|, equal to 1 when both sets are empty, equal to 0
exactly when the union is non-empty and the intersection is empty; `missing`
is the expected set minus the actual set and `extra` the actual set minus
the expected set. -/
theorem C7_array_similarity_spec (expected actual : List String) :
    sqlCalculateArraySimilarity expected actual = calculateArraySimilarity expected actual ∧
    ((lowerSet expected = [] ∧ lowerSet actual = []) →
      (calculateArraySimilarity expected actual).score = 1) ∧
    ((calculateArraySimilarity expected actual).score = 0 ↔
      (simUnion expected actual ≠ [] ∧ simIntersection expected actual = [])) ∧
    (simUnion expected actual ≠ [] →
      (calculateArraySimilarity expected actual).score =
        ((simIntersection expected actual).length : ℚ) /
          ((simUnion expected actual).length : ℚ)) ∧
    (∀ x, x ∈ (calculateArraySimilarity expected actual).missing ↔
      (x ∈ lowerSet expected ∧ x ∉ lowerSet actual)) ∧
    (∀ x, x ∈ (calculateArraySimilarity expected actual).extra ↔
      (x ∈ lowerSet actual ∧ x ∉ lowerSet expected)) := by
  have hcanon : calculateArraySimilarity expected actual =
      ⟨if (simUnion expected actual).length = 0 then 1 else
          ((simIntersection expected actual).length : ℚ) /
            ((simUnion expected actual).length : ℚ),
        (lowerSet expected).filter (fun x => x ∉ lowerSet actual),
        (lowerSet actual).filter (fun x => x ∉ lowerSet expected)⟩ := rfl
  rw [hcanon]
  refine ⟨rfl, ?_, ?_, ?_, ?_, ?_⟩
  · rintro ⟨hE, hA⟩
    have hu : simUnion expected actual = [] := by
      simp only [simUnion, jsSet, hE, hA, List.nil_append]
      rfl
    simp [hu]
  · by_cases h : simUnion expected actual = []
    · simp [h]
    · have hlen : (simUnion expected actual).length ≠ 0 := by
        simpa [List.length_eq_zero] using h
      rw [if_neg hlen, div_eq_zero_iff]
      constructor
      · rintro (h0 | h0)
        · exact ⟨h, by simpa [List.length_eq_zero] using h0⟩
        · exact absurd (by exact_mod_cast h0) hlen
      · rintro ⟨-, h0⟩
        exact Or.inl (by simp [h0])
  · intro h
    have hlen : (simUnion expected actual).length ≠ 0 := by
      simpa [List.length_eq_zero] using h
    rw [if_neg hlen]
  · intro x
    rw [List.mem_filter]
    simp
  · intro x
    rw [List.mem_filter]
    simp

/-- Witness for C7: on expected = {"users","orders"} versus
actual = {"users"}, the union is non-empty and the score is
|intersection| / |union| = 1/2. -/
theorem C7_array_similarity_spec_witness :
    (calculateArraySimilarity ["users", "orders"] ["users"]).score = 1/2 := by
  have h := (C7_array_similarity_spec ["users", "orders"] ["users"]).2.2.2.1 (by decide)
  rw [h]
  have h1 : (simIntersection ["users", "orders"] ["users"]).length = 1 := by decide
  have h2 : (simUnion ["users", "orders"] ["users"]).length = 2 := by decide
  rw [h1, h2]
  norm_num

/-- C1 counterexample: the training/testing split is not performed once
per experiment run. Both supplied shuffle outcomes are permutations of the
same two-row dataset, yet combination 0 is evaluated against training
segment [rowA] while combinations 1 and 2 are evaluated against training
segment [rowB]: the per-combination scores of one full run differ purely
because each `runSingleTest` call re-shuffles and re-splits. -/
theorem C1_single_split_counterexample :
    (demoShuffles 0).Perm demoData ∧ (demoShuffles 1).Perm demoData ∧
    trainingSlice demoConfig.trainingRatio (demoShuffles 0) ≠
      trainingSlice demoConfig.trainingRatio (demoShuffles 1) ∧
    (collectResults trainingSensitiveEval demoConfig demoData demoShuffles 0
        (generateColumnCombinations demoConfig.selectedColumns)).map
      (fun r => r.averageScore) = [1, 0, 0] := by
  have hsi : splitIndexOf 2 (2⁻¹ : ℚ) = 1 := by
    norm_num [splitIndexOf]
  have hs0 : trainingSlice demoConfig.trainingRatio (demoShuffles 0) = [rowA] := by
    simp [trainingSlice, splitData, demoConfig, demoShuffles, hsi]
  have hs1 : trainingSlice demoConfig.trainingRatio (demoShuffles 1) = [rowB] := by
    simp [trainingSlice, splitData, demoConfig, demoShuffles, hsi]
  refine ⟨by decide, by decide, ?_, ?_⟩
  · rw [hs0, hs1]
    decide
  · have hcombs : generateColumnCombinations demoConfig.selectedColumns =
        [combC1, combC2, combC1C2] := by decide
    rw [hcombs]
    have h0 : runSingleTest trainingSensitiveEval demoConfig combC1 demoData
        (demoShuffles 0) =
        .ok { testName := "demo", combination := combC1,
              averageScore := 1, totalTests := 1, trainingEmbeddings := 1,
              averageSimilarity := 1 } := by
      simp [runSingleTest, demoData, demoShuffles, trainingSensitiveEval,
        demoConfig, splitData, hsi, rowA, rowB]
    have h1 : runSingleTest trainingSensitiveEval demoConfig combC2 demoData
        (demoShuffles 1) =
        .ok { testName := "demo", combination := combC2,
              averageScore := 0, totalTests := 1, trainingEmbeddings := 1,
              averageSimilarity := 1 } := by
      simp [runSingleTest, demoData, demoShuffles, trainingSensitiveEval,
        demoConfig, splitData, hsi, rowA, rowB]
    have h2 : runSingleTest trainingSensitiveEval demoConfig combC1C2 demoData
        (demoShuffles 2) =
        .ok { testName := "demo", combination := combC1C2,
              averageScore := 0, totalTests := 1, trainingEmbeddings := 1,
              averageSimilarity := 1 } := by
      simp [runSingleTest, demoData, demoShuffles, trainingSensitiveEval,
        demoConfig, splitData, hsi, rowA, rowB]
    simp [collectResults, h0, h1, h2]

/-- C1 amended: the split is performed anew inside every per-combination
`runSingleTest` call. Combination number i is evaluated with the i-th
shuffle outcome; each call cuts its own shuffled row list at
floor(N × trainingRatio), the first segment being training and the
remainder testing (the two segments partition the shuffled rows); the
evaluation stage of a successful call receives exactly that
per-combination partition. -/
theorem C1_split_is_per_combination (evalPhase : EvalPhase)
    (config : TestConfiguration) (data : List Row)
    (shuffles : Nat → List Row) :
    (∀ i combs, collectResults evalPhase config data shuffles i combs =
      (combs.enumFrom i).filterMap
        (fun p => (runSingleTest evalPhase config p.2 data (shuffles p.1)).toOption)) ∧
    (∀ ratio (l : List Row),
      (splitData ratio l).1 = l.take (⌊(l.length : ℚ) * ratio⌋).toNat ∧
      (splitData ratio l).2 = l.drop (⌊(l.length : ℚ) * ratio⌋).toNat ∧
      (splitData ratio l).1 ++ (splitData ratio l).2 = l) ∧
    (∀ comb shuffled out, data.length ≠ 0 →
      evalPhase comb (splitData config.trainingRatio shuffled).1
          (splitData config.trainingRatio shuffled).2 = .ok out →
      runSingleTest evalPhase config comb data shuffled =
        .ok { testName := config.testName, combination := comb,
              averageScore := out.averageScore, totalTests := out.totalTests,
              trainingEmbeddings := out.trainingEmbeddings,
              averageSimilarity := out.averageSimilarity }) := by
  refine ⟨?_, ?_, ?_⟩
  · intro i combs
    induction combs generalizing i with
    | nil => simp [collectResults, List.enumFrom]
    | cons c rest ih =>
        cases h : runSingleTest evalPhase config c data (shuffles i) with
        | ok r => simp [collectResults, List.enumFrom, h, ih, Except.toOption]
        | error e => simp [collectResults, List.enumFrom, h, ih, Except.toOption]
  · intro ratio l
    exact ⟨rfl, rfl, List.take_append_drop _ l⟩
  · intro comb shuffled out hne hok
    unfold runSingleTest
    rw [if_neg hne, hok]

/-- Witness for C1 amended: with the constant evaluation stage on the
two-row dataset, the one-combination call succeeds with the outcome the
evaluation stage produced for its own split. -/
theorem C1_split_is_per_combination_witness :
    runSingleTest constantEval demoConfig combC1 demoData (demoShuffles 0) =
      .ok { testName := demoConfig.testName, combination := combC1,
            averageScore := 1, totalTests := 1, trainingEmbeddings := 1,
            averageSimilarity := 1 } :=
  (C1_split_is_per_combination constantEval demoConfig demoData demoShuffles).2.2
    combC1 (demoShuffles 0)
    { averageScore := 1, totalTests := 1, trainingEmbeddings := 1,
      averageSimilarity := 1 }
    (by decide) rfl

/-- C2 counterexample: with every combination scoring the same mean, the
reported worstCombination is the FIRST-seen combination in enumeration
order (the strict `<` reduce keeps the incumbent on ties), not the
last-seen one the claim states. -/
theorem C2_worst_tie_counterexample :
    generateColumnCombinations demoConfig.selectedColumns =
      [combC1, combC2, combC1C2] ∧
    (runFullExperiment constantEval "exp" 0 0 demoShuffles demoConfig
        demoData).toOption.map
      (fun r => r.allResults.map (fun t => t.averageScore)) = some [1, 1, 1] ∧
    (runFullExperiment constantEval "exp" 0 0 demoShuffles demoConfig
        demoData).toOption.map
      (fun r => (r.summary.bestCombination, r.summary.worstCombination)) =
      some (combC1, combC1) ∧
    combC1 ≠ combC1C2 := by
  refine ⟨by decide, ?_, ?_, by decide⟩ <;> rfl

/-- C2 amended: in runFullExperiment's aggregation, ties by mean score are
broken first-seen for BOTH best and worst: when every collected result has
the same mean score, both reported combinations are the first-seen one. -/
theorem C2_ties_first_seen_for_best_and_worst (evalPhase : EvalPhase)
    (experimentId : String) (now elapsedMs : Int) (shuffles : Nat → List Row)
    (config : TestConfiguration) (data : List Row) (r0 : TestResult)
    (rest : List TestResult)
    (hrun : collectResults evalPhase config data shuffles 0
      (generateColumnCombinations config.selectedColumns) = r0 :: rest)
    (htie : ∀ r ∈ rest, r.averageScore = r0.averageScore) :
    (runFullExperiment evalPhase experimentId now elapsedMs shuffles config
        data).toOption.map
      (fun r => (r.summary.bestCombination, r.summary.worstCombination)) =
      some (r0.combination, r0.combination) := by
  have hbest : reduceBest r0 rest = r0 := by
    have : ∀ acc l, (∀ r ∈ l, ¬ acc.averageScore < r.averageScore) →
        reduceBest acc l = acc := by
      intro acc l
      induction l generalizing acc with
      | nil => intro _; rfl
      | cons r l ih =>
          intro h
          have hr : ¬ acc.averageScore < r.averageScore := h r (by simp)
          show reduceBest (if r.averageScore > acc.averageScore then r else acc) l = acc
          rw [if_neg hr]
          exact ih acc (fun x hx => h x (by simp [hx]))
    exact this r0 rest (fun r hr => by rw [htie r hr]; exact lt_irrefl _)
  have hworst : reduceWorst r0 rest = r0 := by
    have : ∀ acc l, (∀ r ∈ l, ¬ r.averageScore < acc.averageScore) →
        reduceWorst acc l = acc := by
      intro acc l
      induction l generalizing acc with
      | nil => intro _; rfl
      | cons r l ih =>
          intro h
          have hr : ¬ r.averageScore < acc.averageScore := h r (by simp)
          show reduceWorst (if r.averageScore < acc.averageScore then r else acc) l = acc
          rw [if_neg hr]
          exact ih acc (fun x hx => h x (by simp [hx]))
    exact this r0 rest (fun r hr => by rw [htie r hr]; exact lt_irrefl _)
  simp only [runFullExperiment]
  rw [hrun]
  simp [hbest, hworst, Except.toOption]

/-- Witness for C2 amended: the constant-score experiment reports the
first-seen combination as both best and worst. -/
theorem C2_ties_first_seen_for_best_and_worst_witness :
    (runFullExperiment constantEval "exp" 0 0 demoShuffles demoConfig
        demoData).toOption.map
      (fun r => (r.summary.bestCombination, r.summary.worstCombination)) =
      some (combC1, combC1) :=
  C2_ties_first_seen_for_best_and_worst constantEval "exp" 0 0 demoShuffles
    demoConfig demoData
    { testName := "demo", combination := combC1, averageScore := 1,
      totalTests := 1, trainingEmbeddings := 1, averageSimilarity := 1 }
    [{ testName := "demo", combination := combC2, averageScore := 1,
       totalTests := 1, trainingEmbeddings := 1, averageSimilarity := 1 },
     { testName := "demo", combination := combC1C2, averageScore := 1,
       totalTests := 1, trainingEmbeddings := 1, averageSimilarity := 1 }]
    rfl (by decide)

/-- C5 counterexample: when the embedding provider throws for the
combination named "c2", that combination is aborted, but NO failed
CombinationResult is recorded: the experiment's result list holds only the
two successful combinations, and the summary counts 2 combinations. -/
theorem C5_failed_combination_not_recorded_counterexample :
    runSingleTest failOnC2Eval demoConfig combC2 demoData (demoShuffles 1) =
      .error "Embedding provider failed" ∧
    (runFullExperiment failOnC2Eval "exp" 0 0 demoShuffles demoConfig
        demoData).toOption.map
      (fun r => r.allResults.map (fun t => t.combination)) =
      some [combC1, combC1C2] ∧
    (runFullExperiment failOnC2Eval "exp" 0 0 demoShuffles demoConfig
        demoData).toOption.map
      (fun r => r.summary.totalCombinations) = some 2 := by
  refine ⟨?_, ?_, ?_⟩ <;> rfl

/-- C5 amended: a combination whose evaluation throws is aborted and
skipped entirely — the per-combination loop records nothing for it and
its output is exactly the output for the remaining combinations; the
orchestrator proceeds with the next combination. -/
theorem C5_failed_combination_skipped (evalPhase : EvalPhase)
    (config : TestConfiguration) (data : List Row)
    (shuffles : Nat → List Row) (i : Nat) (c : ColumnCombination)
    (rest : List ColumnCombination) (msg : String)
    (h : runSingleTest evalPhase config c data (shuffles i) = .error msg) :
    collectResults evalPhase config data shuffles i (c :: rest) =
      collectResults evalPhase config data shuffles (i + 1) rest := by
  simp [collectResults, h]

/-- Witness for C5 amended: the failing combination "c2" at loop index 1
contributes nothing to the collected results. -/
theorem C5_failed_combination_skipped_witness :
    collectResults failOnC2Eval demoConfig demoData demoShuffles 1
        [combC2, combC1C2] =
      collectResults failOnC2Eval demoConfig demoData demoShuffles 2
        [combC1C2] :=
  C5_failed_combination_skipped failOnC2Eval demoConfig demoData demoShuffles
    1 combC2 [combC1C2] "Embedding provider failed" rfl

mutual

/-- Parsing the stringified form of a runtime value yields the value with
every Date replaced by its ISO string. -/
theorem valueOfJson_jsonOfValue (d : Int → String) :
    ∀ v : JsValue, valueOfJson (jsonOfValue d v) = stripDates d v
  | .null => rfl
  | .bool _ => rfl
  | .num _ => rfl
  | .str _ => rfl
  | .date _ => rfl
  | .arr vs => by
      simp [jsonOfValue, valueOfJson, stripDates,
        valueOfJsonList_jsonOfValueList d vs]
  | .obj fs => by
      simp [jsonOfValue, valueOfJson, stripDates,
        valueOfJsonFields_jsonOfValueFields d fs]

/-- Round-trip lemma for array elements. -/
theorem valueOfJsonList_jsonOfValueList (d : Int → String) :
    ∀ vs : List JsValue,
      valueOfJsonList (jsonOfValueList d vs) = stripDatesList d vs
  | [] => rfl
  | v :: vs => by
      simp [jsonOfValueList, valueOfJsonList, stripDatesList,
        valueOfJson_jsonOfValue d v, valueOfJsonList_jsonOfValueList d vs]

/-- Round-trip lemma for object fields. -/
theorem valueOfJsonFields_jsonOfValueFields (d : Int → String) :
    ∀ fs : List (String × JsValue),
      valueOfJsonFields (jsonOfValueFields d fs) = stripDatesFields d fs
  | [] => rfl
  | (k, v) :: fs => by
      simp [jsonOfValueFields, valueOfJsonFields, stripDatesFields,
        valueOfJson_jsonOfValue d v, valueOfJsonFields_jsonOfValueFields d fs]

end

mutual

/-- A runtime value without Dates is left unchanged by `stripDates`. -/
theorem stripDates_of_dateFree (d : Int → String) :
    ∀ v : JsValue, containsDate v = false → stripDates d v = v
  | .null, _ => rfl
  | .bool _, _ => rfl
  | .num _, _ => rfl
  | .str _, _ => rfl
  | .arr vs, h => by
      simp only [containsDate] at h
      simp [stripDates, stripDatesList_of_dateFree d vs h]
  | .obj fs, h => by
      simp only [containsDate] at h
      simp [stripDates, stripDatesFields_of_dateFree d fs h]

/-- Date-free array elements are left unchanged. -/
theorem stripDatesList_of_dateFree (d : Int → String) :
    ∀ vs : List JsValue, containsDateList vs = false →
      stripDatesList d vs = vs
  | [], _ => rfl
  | v :: vs, h => by
      simp only [containsDateList, Bool.or_eq_false_iff] at h
      simp [stripDatesList, stripDates_of_dateFree d v h.1,
        stripDatesList_of_dateFree d vs h.2]

/-- Date-free object fields are left unchanged. -/
theorem stripDatesFields_of_dateFree (d : Int → String) :
    ∀ fs : List (String × JsValue), containsDateFields fs = false →
      stripDatesFields d fs = fs
  | [], _ => rfl
  | (k, v) :: fs, h => by
      simp only [containsDateFields, Bool.or_eq_false_iff] at h
      simp [stripDatesFields, stripDates_of_dateFree d v h.1,
        stripDatesFields_of_dateFree d fs h.2]

end

/-- C6 counterexample: a value actually produced by runFullExperiment does
not survive the export/import round trip unchanged: its timestamp comes
back as the ISO string rather than the Date it was. -/
theorem C6_roundtrip_counterexample :
    runFullExperiment constantEval "exp" 5 7 demoShuffles demoConfig demoData =
      .ok demoRunOutput ∧
    importResults (exportResults demoDateString demoRunOutput) ≠
      experimentResultsValue demoRunOutput := by
  constructor
  · have hc : collectResults constantEval demoConfig demoData demoShuffles 0
        (generateColumnCombinations demoConfig.selectedColumns) =
        [{ testName := "demo", combination := combC1, averageScore := 1,
           totalTests := 1, trainingEmbeddings := 1, averageSimilarity := 1 },
         { testName := "demo", combination := combC2, averageScore := 1,
           totalTests := 1, trainingEmbeddings := 1, averageSimilarity := 1 },
         { testName := "demo", combination := combC1C2, averageScore := 1,
           totalTests := 1, trainingEmbeddings := 1, averageSimilarity := 1 }] := rfl
    simp only [runFullExperiment, hc]
    simp [demoRunOutput, demoConfig, reduceBest, reduceWorst,
      ExperimentResults.mk.injEq, ExperimentSummary.mk.injEq]
    norm_num
  · intro h
    simp [importResults, exportResults, experimentResultsValue, jsonOfValue,
      valueOfJson, jsonOfValueFields, valueOfJsonFields, jsonOfValueList,
      valueOfJsonList, configurationValue, summaryValue, testResultValue,
      combinationValue, demoRunOutput, demoDateString] at h

/-- C6 amended: the export/import round trip reproduces every field of the
runtime ExperimentResults value except Date-valued fields, which come back
as their ISO strings; a Date-free value round-trips unchanged, but every
value runFullExperiment produces contains a Date (its timestamp), so the
round trip never reproduces it exactly. -/
theorem C6_roundtrip_strips_dates (d : Int → String) (r : ExperimentResults) :
    importResults (exportResults d r) =
      stripDates d (experimentResultsValue r) ∧
    (∀ v : JsValue, containsDate v = false → stripDates d v = v) ∧
    containsDate (experimentResultsValue r) = true := by
  refine ⟨?_, fun v h => stripDates_of_dateFree d v h, rfl⟩
  exact valueOfJson_jsonOfValue d (experimentResultsValue r)

/-- Witness for C6 amended: at the demo run output, the round trip equals
the date-stripped value, and a Date-free value (null) is unchanged. -/
theorem C6_roundtrip_strips_dates_witness :
    importResults (exportResults demoDateString demoRunOutput) =
      stripDates demoDateString (experimentResultsValue demoRunOutput) ∧
    stripDates demoDateString JsValue.null = JsValue.null :=
  ⟨(C6_roundtrip_strips_dates demoDateString demoRunOutput).1,
   (C6_roundtrip_strips_dates demoDateString demoRunOutput).2.1 JsValue.null rfl⟩

/-- A reduce that adds 1 per present term counts exactly the matching
terms. -/
theorem foldl_count_eq_filter_length (p : String → Bool) :
    ∀ (l : List String) (n : Nat),
      l.foldl (fun s t => s + if p t then 1 else 0) n = n + (l.filter p).length
  | [], n => by simp
  | t :: l, n => by
      simp only [List.foldl_cons, List.filter_cons]
      by_cases h : p t
      · simp only [h, if_true, foldl_count_eq_filter_length p l]
        simp
        omega
      · simp only [h, if_false, foldl_count_eq_filter_length p l]
        simp [h]

/-- The reduce-based vocabulary score equals the number of distinct
matching terms. -/
theorem termHitScore_eq_distinctHits (terms : List String) (text : String) :
    termHitScore terms text = distinctHits terms text := by
  have h := foldl_count_eq_filter_length (fun t => termPresent t text) terms 0
  simpa [termHitScore, distinctHits] using h

/-- C9: the domain-document extractor's semantic class follows the fixed
threshold chain on distinct vocabulary hits: ≥3 regulatory terms gives
regulatory; otherwise ≥2 procedural terms gives procedural; otherwise ≥2
technical terms gives technical; otherwise any hit gives mixed; otherwise
informational. -/
theorem C9_semantic_classification (text : String) :
    (3 ≤ distinctHits regulatoryTermsList text →
      classifySemanticType text = .regulatory) ∧
    (distinctHits regulatoryTermsList text < 3 →
      2 ≤ distinctHits proceduralTermsList text →
      classifySemanticType text = .procedural) ∧
    (distinctHits regulatoryTermsList text < 3 →
      distinctHits proceduralTermsList text < 2 →
      2 ≤ distinctHits technicalTermsList text →
      classifySemanticType text = .technical) ∧
    (distinctHits regulatoryTermsList text < 3 →
      distinctHits proceduralTermsList text < 2 →
      distinctHits technicalTermsList text < 2 →
      (0 < distinctHits regulatoryTermsList text ∨
        0 < distinctHits proceduralTermsList text ∨
        0 < distinctHits technicalTermsList text) →
      classifySemanticType text = .mixed) ∧
    (distinctHits regulatoryTermsList text = 0 →
      distinctHits proceduralTermsList text = 0 →
      distinctHits technicalTermsList text = 0 →
      classifySemanticType text = .informational) := by
  unfold classifySemanticType
  rw [termHitScore_eq_distinctHits regulatoryTermsList text,
    termHitScore_eq_distinctHits proceduralTermsList text,
    termHitScore_eq_distinctHits technicalTermsList text]
  refine ⟨?_, ?_, ?_, ?_, ?_⟩
  · intro h
    rw [if_pos h]
  · intro h1 h2
    rw [if_neg (by omega), if_pos h2]
  · intro h1 h2 h3
    rw [if_neg (by omega), if_neg (by omega), if_pos h3]
  · intro h1 h2 h3 h4
    rw [if_neg (by omega), if_neg (by omega), if_neg (by omega), if_pos h4]
  · intro h1 h2 h3
    rw [if_neg (by omega), if_neg (by omega), if_neg (by omega),
      if_neg (by omega)]

/-- Witness for C9: a text containing the three regulatory terms
supervision, compliance and regulation classifies as regulatory. -/
theorem C9_semantic_classification_witness :
    classifySemanticType "supervision compliance regulation" =
      SemanticClass.regulatory :=
  (C9_semantic_classification "supervision compliance regulation").1 (by decide)

/-- C10: on two empty strings the domain-document metric extracts all-empty
feature sets with class informational, every sub-score is 1 (each set
comparison is vacuous and the classes match), and the overall score is
exactly 1 with the default weights. -/
theorem C10_empty_pair_perfect_score :
    extractBRDRFeatures "" =
      { documentTypes := [], regulatoryTopics := [], concepts := [],
        keywords := [], complianceTerms := [], riskFactors := [],
        documentReferences := [], semanticClass := .informational } ∧
    (brdrCalculate defaultBRDRWeights "" "").breakdown =
      { semanticSimilarityScore := 1, documentRelevanceScore := 1,
        conceptAccuracyScore := 1, topicAlignmentScore := 1,
        keywordPresenceScore := 1, regulatoryComplianceScore := 1,
        contextualCoherenceScore := 1 } ∧
    (brdrCalculate defaultBRDRWeights "" "").overallScore = 1 := by
  have hfeat : extractBRDRFeatures "" =
      { documentTypes := [], regulatoryTopics := [], concepts := [],
        keywords := [], complianceTerms := [], riskFactors := [],
        documentReferences := [], semanticClass := .informational } := by decide
  have hsim : calculateArraySimilarity [] [] = ⟨1, [], []⟩ := rfl
  refine ⟨hfeat, ?_, ?_⟩
  · simp only [brdrCalculate, hfeat, calculateSemanticSimilarity, hsim,
      List.nil_append, defaultBRDRWeights]
    simp [BRDRBreakdown.mk.injEq]
    norm_num
  · simp only [brdrCalculate, hfeat, calculateSemanticSimilarity, hsim,
      List.nil_append, defaultBRDRWeights]
    norm_num

/-- The JS-Set insertion loop only consults membership of the seen list. -/
theorem jsSetAux_congr : ∀ (l : List String) {seen seen' : List String},
    (∀ x, x ∈ seen ↔ x ∈ seen') → jsSetAux seen l = jsSetAux seen' l
  | [], _, _, _ => rfl
  | a :: l, seen, seen', h => by
      show (if a ∈ seen then jsSetAux seen l else a :: jsSetAux (a :: seen) l) =
        (if a ∈ seen' then jsSetAux seen' l else a :: jsSetAux (a :: seen') l)
      by_cases ha : a ∈ seen
      · rw [if_pos ha, if_pos ((h a).mp ha)]
        exact jsSetAux_congr l h
      · rw [if_neg ha, if_neg (fun hc => ha ((h a).mpr hc))]
        exact congrArg (a :: ·) (jsSetAux_congr l (fun y => by
          simp only [List.mem_cons, h y]))

/-- Membership in the JS-Set insertion loop's output. -/
theorem mem_jsSetAux : ∀ (l seen : List String) (x : String),
    x ∈ jsSetAux seen l ↔ x ∈ l ∧ x ∉ seen
  | [], seen, x => by simp [jsSetAux]
  | a :: l, seen, x => by
      show x ∈ (if a ∈ seen then jsSetAux seen l else a :: jsSetAux (a :: seen) l) ↔ _
      by_cases ha : a ∈ seen
      · rw [if_pos ha, mem_jsSetAux l seen x]
        constructor
        · rintro ⟨hl, hs⟩
          exact ⟨List.mem_cons_of_mem a hl, hs⟩
        · rintro ⟨hal, hs⟩
          rcases List.mem_cons.mp hal with rfl | hl
          · exact absurd ha hs
          · exact ⟨hl, hs⟩
      · rw [if_neg ha]
        simp only [List.mem_cons, mem_jsSetAux l (a :: seen) x, List.mem_cons]
        by_cases hxa : x = a
        · subst hxa
          simp [ha]
        · simp [hxa]

/-- The JS-Set insertion loop produces no duplicates. -/
theorem jsSetAux_nodup : ∀ (l seen : List String), (jsSetAux seen l).Nodup
  | [], _ => List.nodup_nil
  | a :: l, seen => by
      show (if a ∈ seen then jsSetAux seen l else a :: jsSetAux (a :: seen) l).Nodup
      by_cases ha : a ∈ seen
      · rw [if_pos ha]
        exact jsSetAux_nodup l seen
      · rw [if_neg ha]
        refine List.nodup_cons.mpr ⟨?_, jsSetAux_nodup l (a :: seen)⟩
        intro hmem
        exact ((mem_jsSetAux l (a :: seen) a).mp hmem).2 (List.mem_cons_self a seen)

/-- On a duplicate-free list the insertion loop is a plain filter against
the seen list. -/
theorem jsSetAux_eq_filter : ∀ (l : List String), l.Nodup →
    ∀ seen, jsSetAux seen l = l.filter (fun x => x ∉ seen)
  | [], _, seen => rfl
  | a :: l, h, seen => by
      obtain ⟨ha, hl⟩ := List.nodup_cons.mp h
      show (if a ∈ seen then jsSetAux seen l else a :: jsSetAux (a :: seen) l) = _
      by_cases has : a ∈ seen
      · rw [if_pos has, jsSetAux_eq_filter l hl seen, List.filter_cons]
        simp [has]
      · rw [if_neg has, List.filter_cons]
        have hd : decide (a ∉ seen) = true := by simp [has]
        rw [hd, if_pos rfl]
        refine congrArg (a :: ·) ?_
        rw [jsSetAux_eq_filter l hl (a :: seen)]
        refine List.filter_congr (fun x hx => ?_)
        have hxa : x ≠ a := fun hxa => ha (hxa ▸ hx)
        simp [List.mem_cons, hxa]

/-- The insertion loop on an appended list processes the halves in order,
with the first half added to the seen set for the second. -/
theorem jsSetAux_append : ∀ (l1 l2 seen : List String),
    jsSetAux seen (l1 ++ l2) = jsSetAux seen l1 ++ jsSetAux (l1 ++ seen) l2
  | [], l2, seen => by simp [jsSetAux]
  | a :: l1, l2, seen => by
      show jsSetAux seen ((a :: l1) ++ l2) = _
      rw [List.cons_append]
      show (if a ∈ seen then jsSetAux seen (l1 ++ l2)
        else a :: jsSetAux (a :: seen) (l1 ++ l2)) = _
      by_cases ha : a ∈ seen
      · rw [if_pos ha, jsSetAux_append l1 l2 seen]
        show _ = (if a ∈ seen then jsSetAux seen l1
          else a :: jsSetAux (a :: seen) l1) ++ _
        rw [if_pos ha]
        refine congrArg (jsSetAux seen l1 ++ ·) (jsSetAux_congr l2 (fun x => ?_))
        constructor
        · intro hx
          rcases List.mem_append.mp hx with h1 | h2
          · exact List.mem_append.mpr (Or.inl (List.mem_cons_of_mem a h1))
          · exact List.mem_append.mpr (Or.inr h2)
        · intro hx
          rcases List.mem_append.mp hx with h1 | h2
          · rcases List.mem_cons.mp h1 with rfl | h1
            · exact List.mem_append.mpr (Or.inr ha)
            · exact List.mem_append.mpr (Or.inl h1)
          · exact List.mem_append.mpr (Or.inr h2)
      · rw [if_neg ha, jsSetAux_append l1 l2 (a :: seen)]
        show _ = (if a ∈ seen then jsSetAux seen l1
          else a :: jsSetAux (a :: seen) l1) ++ _
        rw [if_neg ha, List.cons_append]
        refine congrArg (fun t => a :: (jsSetAux (a :: seen) l1 ++ t))
          (jsSetAux_congr l2 (fun x => ?_))
        simp only [List.mem_append, List.mem_cons]
        tauto

/-- A JS Set built from a duplicate-free list repeated twice contains each
element once. -/
theorem jsSet_self_append (E : List String) (hE : E.Nodup) :
    jsSet (E ++ E) = E := by
  show jsSetAux [] (E ++ E) = E
  rw [jsSetAux_append E E []]
  rw [jsSetAux_eq_filter E hE []]
  rw [jsSetAux_eq_filter E hE (E ++ [])]
  have h1 : E.filter (fun x => x ∉ ([] : List String)) = E := by
    simp
  have h2 : E.filter (fun x => x ∉ E ++ ([] : List String)) = [] := by
    rw [List.filter_eq_nil_iff]
    intro x hx
    simp [hx]
  rw [h1, h2, List.append_nil]

/-- The lower-cased de-duplicated set is duplicate-free. -/
theorem lowerSet_nodup (l : List String) : (lowerSet l).Nodup :=
  jsSetAux_nodup _ _

/-- The set-similarity primitive on two identical lists: perfect score, no
missing and no extra entries (the spec's `similarity(A,A).score == 1`). -/
theorem calculateArraySimilarity_self (l : List String) :
    calculateArraySimilarity l l = ⟨1, [], []⟩ := by
  have hcanon : calculateArraySimilarity l l =
      ⟨if (simUnion l l).length = 0 then 1 else
          ((simIntersection l l).length : ℚ) / ((simUnion l l).length : ℚ),
        (lowerSet l).filter (fun x => x ∉ lowerSet l),
        (lowerSet l).filter (fun x => x ∉ lowerSet l)⟩ := rfl
  have hmissing : (lowerSet l).filter (fun x => x ∉ lowerSet l) = [] := by
    rw [List.filter_eq_nil_iff]
    intro x hx
    simp [hx]
  have hunion : simUnion l l = lowerSet l :=
    jsSet_self_append (lowerSet l) (lowerSet_nodup l)
  have hinter : simIntersection l l = lowerSet l := by
    unfold simIntersection
    rw [List.filter_eq_self]
    intro x hx
    simpa using hx
  rw [hcanon, hmissing, hunion, hinter]
  by_cases hE : lowerSet l = []
  · simp [hE]
  · have hlen : (lowerSet l).length ≠ 0 := by
      simpa [List.length_eq_zero] using hE
    rw [if_neg hlen, div_self (by exact_mod_cast hlen)]

/-- C8: with the default weights, the structured-query scorer gives the
identical pair "SELECT id FROM users" / "SELECT id FROM users" an overall
score of exactly 1, provided the strict parser accepts the cleaned query
(the environment-supplied sql-parser-cst call succeeds). -/
theorem C8_identical_sql_scores_one (parse : SqlParser)
    (h : (parse (extractSQL "SELECT id FROM users")).isSome = true) :
    (sqlCalculate parse defaultSQLWeights "SELECT id FROM users"
      "SELECT id FROM users").overallScore = 1 := by
  obtain ⟨ast, hast⟩ := Option.isSome_iff_exists.mp h
  have hana : analyzeSQL parse "SELECT id FROM users" =
      { tables := ast.tables, columns := ast.columns, joins := [],
        keywords := extractKeywords (extractSQL "SELECT id FROM users"),
        isValid := true, parseErrors := [] } := by
    simp only [analyzeSQL]
    rw [hast]
  simp only [sqlCalculate, hana, sqlCalculateArraySimilarity,
    calculateArraySimilarity_self, defaultSQLWeights]
  norm_num

/-- Witness for C8 at a concrete succeeding parser. -/
theorem C8_identical_sql_scores_one_witness :
    (sqlCalculate (fun _ => some ⟨["users"], ["id"]⟩) defaultSQLWeights
      "SELECT id FROM users" "SELECT id FROM users").overallScore = 1 :=
  C8_identical_sql_scores_one (fun _ => some ⟨["users"], ["id"]⟩) rfl
